import Mathlib

/-!
Verification of the room-resolution middlewares of the chatluna repository.

The development shallowly embeds three middleware handlers:
  * `resolve_room`  (src/packages/core/src/middlewares/resolve_room.ts)
  * `check_room`    (src/packages/core/src/middlewares/check_room.ts)
  * `read_chat_message` (src/packages/core/src/middlewares/read_chat_message.ts)

External collaborators (room repository queries, random index, uuid
generation) are modelled as an explicit environment record; side effects
(switching the active room, creating a room, upserting, clearing cache or
history, sending a notice) are recorded in the result record instead of
being performed.
-/

namespace Chatluna

/-- The three control signals of `ChainMiddlewareRunStatus` used by these
middlewares. -/
inductive RunStatus where
  | SKIPPED
  | STOP
  | CONTINUE
deriving Repr, DecidableEq

/-- `ConversationRoom` from src/packages/core/src/types (fields as used by the
middlewares). `visibility` is one of "private", "public", "template_clone". -/
structure ConversationRoom where
  roomId : Nat
  roomName : String
  conversationId : String
  roomMasterId : String
  visibility : String
  preset : String
  model : String
  chatMode : String
  autoUpdate : Bool
deriving Repr, DecidableEq

/-- The configuration surface consumed by the middlewares. -/
structure Config where
  allowChatWithRoomName : Bool
  allowPrivate : Bool
  privateChatWithoutCommand : Bool
  allowAtReply : Bool
  botName : String
  isNickname : Bool
  autoCreateRoomFromUser : Bool
  defaultPreset : String
  defaultModel : String
  defaultChatMode : String
deriving Repr, DecidableEq

/-- The session fields read by `resolve_room`: user id, optional display
name, direct-message flag, whether the bot was mentioned
(`session.stripped.appel`), the raw content, and guild data. -/
structure Session where
  userId : String
  username : Option String
  isDirect : Bool
  strippedAppel : Bool
  content : String
  guildName : Option String
  guildId : String
deriving Repr, DecidableEq

/-- The parts of the per-message execution context read by `resolve_room`:
`context.options.room_resolve.name`, `context.command`, and
`context.message` (a string at this point of the pipeline). -/
structure RCtx where
  roomResolveName : Option String
  command : Option String
  message : String
deriving Repr, DecidableEq

/-- Environment of external collaborators for one `resolve_room` run:
`queryJoinedConversationRoom` (keyed by the optional name argument),
`getAllJoinedConversationRoom`, `queryPublicConversationRoom`,
`getTemplateConversationRoom`, `getConversationRoomCount` (imported as
`getMaxConversationRoomId`), the uuid produced by `uuidv4()`, and the
random index drawn by `Math.floor(Math.random() * length)` (reduced modulo
the list length at use sites). -/
structure Env where
  queryJoined : Option String → Option ConversationRoom
  joinedRooms : List ConversationRoom
  publicRoom : Option ConversationRoom
  templateRoom : Option ConversationRoom
  maxRoomId : Nat
  freshUuid : String
  randIdx : Nat

/-- Recorded outcome of a `resolve_room` run: returned status, the final
`context.options.room`, and the side effects performed on the way
(`switchConversationRoom`, `createConversationRoom`, `clearCache`,
database upsert, `clearChatHistory`). -/
structure ResolveResult where
  status : RunStatus
  room : Option ConversationRoom
  switchedTo : Option Nat
  created : Option ConversationRoom
  clearedCache : Bool
  upserted : Option ConversationRoom
  clearedHistory : Bool
deriving Repr, DecidableEq

/-- A `resolve_room` run either completes with a `ResolveResult` or throws a
TypeError by reading `roomId` off a null `joinRoom` (line 111 of the
source). -/
inductive ResolveOutcome where
  | nullDeref
  | ok (r : ResolveResult)
deriving Repr, DecidableEq

/-- `(context.command?.length ?? 0)`. -/
def cmdLen (command : Option String) : Nat :=
  (command.map String.length).getD 0

/-- JavaScript `split(' ')` on the underlying character list: each single
space starts a new (possibly empty) word, and the empty string splits to
`[""]`. -/
def splitChars : List Char → List (List Char)
  | [] => [[]]
  | c :: rest =>
    let r := splitChars rest
    if c = ' ' then [] :: r
    else
      match r with
      | [] => [[c]]
      | w :: ws => (c :: w) :: ws

/-- `message.split(' ')`. -/
def jsSplitOnSpace (s : String) : List String :=
  (splitChars s.data).map List.asString

/-- JavaScript `s.startsWith(p)`. -/
def jsStartsWith (s p : String) : Bool :=
  List.isPrefixOf p.data s.data

/-- The `needContinue` ternary chain of resolve_room.ts lines 32-46:
direct message with private chat allowed and (command set or
`privateChatWithoutCommand`), or bot mention with `allowAtReply`, or content
starting with the bot name used as nickname, or a command context. -/
def needContinue (cfg : Config) (s : Session) (command : Option String) : Bool :=
  if s.isDirect && cfg.allowPrivate && (command.isSome || cfg.privateChatWithoutCommand) then
    true
  else if s.strippedAppel && cfg.allowAtReply then
    true
  else if jsStartsWith s.content cfg.botName && cfg.isNickname then
    true
  else
    command.isSome

/-- resolve_room.ts lines 49-60: split `context.message` on spaces; when
there are at least two words, look the first word up among the user's
joined rooms, otherwise `matchedRoom` stays undefined. -/
def matchedRoomOf (env : Env) (message : String) : Option ConversationRoom :=
  let splitContent := jsSplitOnSpace message
  if splitContent.length > 1 then
    env.queryJoined splitContent.head?
  else
    none

/-- resolve_room.ts lines 84-108: the step-2 pick among the joined rooms.
`private` room owned by the user, else `template_clone` room owned by the
user; only when `autoCreateRoomFromUser !== true` and both fail, any
`template_clone` room, else the random index. Returns `none` exactly when
the source leaves `joinRoom` null (reaching the null dereference). -/
def pickJoinedRoom (cfg : Config) (userId : String)
    (rooms : List ConversationRoom) (k : Nat) : Option ConversationRoom :=
  let owned :=
    (rooms.find? fun r => r.visibility == "private" && r.roomMasterId == userId).orElse
      fun _ => rooms.find? fun r => r.visibility == "template_clone" && r.roomMasterId == userId
  if !cfg.autoCreateRoomFromUser && owned.isNone then
    (rooms.find? fun r => r.visibility == "template_clone").orElse
      fun _ => rooms.get? (k % rooms.length)
  else
    owned

/-- resolve_room.ts lines 146-188: deep-copy the template room, give it a
fresh `conversationId`, set the requesting user as master, the next room
id, and a name derived from the user (direct chat) or guild (group chat);
visibility and name suffix depend on `autoCreateRoomFromUser`. -/
def makeCloneRoom (cfg : Config) (s : Session) (env : Env)
    (templateRoom : ConversationRoom) : ConversationRoom :=
  let base := if s.isDirect then s.username.getD s.userId
              else s.guildName.getD (s.username.getD s.guildId)
  { templateRoom with
    conversationId := env.freshUuid
    roomMasterId := s.userId
    visibility := if cfg.autoCreateRoomFromUser then "private" else "template_clone"
    roomId := env.maxRoomId + 1
    roomName := if cfg.autoCreateRoomFromUser then base ++ " 的房间"
                else base ++ " 的模版克隆房间" }

/-- Output of the step-5 template resync (resolve_room.ts lines 195-224):
the in-memory room after the block, and which effects ran (`clearCache`,
the `chathub_room` upsert, `clearChatHistory`). -/
structure ResyncResult where
  room : ConversationRoom
  clearedCache : Bool
  upserted : Option ConversationRoom
  clearedHistory : Bool
deriving Repr, DecidableEq

/-- resolve_room.ts lines 195-224: on a `template_clone` room with
`autoUpdate`, set `needUpdate` when `preset` or `chatMode` differ from the
live defaults; only in the `else` branch, call `clearCache` when `model`
differs; always overwrite `model`/`preset`/`chatMode` in memory; when
`needUpdate`, upsert the (already overwritten) room and clear its chat
history. Any other room passes through unchanged. -/
def templateResync (cfg : Config) (room : ConversationRoom) : ResyncResult :=
  if room.visibility == "template_clone" && room.autoUpdate then
    let needUpdate := room.preset != cfg.defaultPreset || room.chatMode != cfg.defaultChatMode
    let cacheCleared := !needUpdate && room.model != cfg.defaultModel
    let room' := { room with
      model := cfg.defaultModel
      preset := cfg.defaultPreset
      chatMode := cfg.defaultChatMode }
    { room := room'
      clearedCache := cacheCleared
      upserted := if needUpdate then some room' else none
      clearedHistory := needUpdate }
  else
    { room := room, clearedCache := false, upserted := none, clearedHistory := false }

/-- Steps 5-6 applied to the room held after steps 1-4 (resolve_room.ts
lines 195-228): run the template resync when a room is held, store the
result under `context.options.room`, return `CONTINUE`. -/
def finishResolve (cfg : Config) (joinRoom : Option ConversationRoom)
    (switchedTo : Option Nat) (created : Option ConversationRoom) : ResolveResult :=
  match joinRoom with
  | some r =>
    let rr := templateResync cfg r
    { status := RunStatus.CONTINUE
      room := some rr.room
      switchedTo := switchedTo
      created := created
      clearedCache := rr.clearedCache
      upserted := rr.upserted
      clearedHistory := rr.clearedHistory }
  | none =>
    { status := RunStatus.CONTINUE
      room := none
      switchedTo := switchedTo
      created := created
      clearedCache := false
      upserted := none
      clearedHistory := false }

/-- resolve_room.ts lines 119-193 (steps 3 and 4), entered with `joinRoom`
null: adopt the public room when not a direct message, no command and
`autoCreateRoomFromUser !== true`; otherwise, with no command, clone the
template room (returning `SKIPPED` when there is none) and persist the
clone. -/
def resolveStep3 (cfg : Config) (env : Env) (s : Session) (c : RCtx) : ResolveOutcome :=
  let publicPick : Option ConversationRoom :=
    if !cfg.autoCreateRoomFromUser && !s.isDirect && cmdLen c.command < 1 then
      env.publicRoom
    else
      none
  match publicPick with
  | some r => ResolveOutcome.ok (finishResolve cfg (some r) none none)
  | none =>
    if cmdLen c.command < 1 then
      match env.templateRoom with
      | none =>
        ResolveOutcome.ok
          { status := RunStatus.SKIPPED
            room := none
            switchedTo := none
            created := none
            clearedCache := false
            upserted := none
            clearedHistory := false }
      | some t =>
        let clone := makeCloneRoom cfg s env t
        ResolveOutcome.ok (finishResolve cfg (some clone) none (some clone))
    else
      ResolveOutcome.ok (finishResolve cfg none none none)

/-- resolve_room.ts lines 76-228 from step 2 on, given the room held after
step 1: when it is null and the user has joined rooms, run the priority
pick and call `switchConversationRoom(ctx, session, joinRoom.roomId)` —
an unguarded access that dereferences null when the pick fails. -/
def resolveStep2 (cfg : Config) (env : Env) (s : Session) (c : RCtx)
    (joinRoom : Option ConversationRoom) : ResolveOutcome :=
  match joinRoom with
  | some r => ResolveOutcome.ok (finishResolve cfg (some r) none none)
  | none =>
    if env.joinedRooms.length > 0 then
      match pickJoinedRoom cfg s.userId env.joinedRooms env.randIdx with
      | none => ResolveOutcome.nullDeref
      | some r => ResolveOutcome.ok (finishResolve cfg (some r) (some r.roomId) none)
    else
      resolveStep3 cfg env s c

/-- The whole `resolve_room` middleware handler (resolve_room.ts lines
24-228). Step 1: query by the name hint; with `allowChatWithRoomName`,
compute `needContinue`, match the first word, return `STOP` when neither
holds, and otherwise overwrite `joinRoom` with the first-word match. -/
def resolve_room (cfg : Config) (env : Env) (s : Session) (c : RCtx) : ResolveOutcome :=
  let hintRoom := env.queryJoined c.roomResolveName
  if cfg.allowChatWithRoomName &&
      (matchedRoomOf env c.message).isNone && !needContinue cfg s c.command then
    ResolveOutcome.ok
      { status := RunStatus.STOP
        room := none
        switchedTo := none
        created := none
        clearedCache := false
        upserted := none
        clearedHistory := false }
  else
    let joinRoom := if cfg.allowChatWithRoomName then matchedRoomOf env c.message else hintRoom
    resolveStep2 cfg env s c joinRoom

/-- Status projection of a resolve outcome (`none` on the thrown
TypeError). -/
def outStatus : ResolveOutcome → Option RunStatus
  | ResolveOutcome.nullDeref => none
  | ResolveOutcome.ok r => some r.status

/-- `switchConversationRoom` argument projection of a resolve outcome. -/
def outSwitchedTo : ResolveOutcome → Option Nat
  | ResolveOutcome.nullDeref => none
  | ResolveOutcome.ok r => r.switchedTo

/-- Room projection of a resolve outcome. -/
def outRoom : ResolveOutcome → Option ConversationRoom
  | ResolveOutcome.nullDeref => none
  | ResolveOutcome.ok r => r.room

/-- The step-2 priority written out as the specification phrases it:
(a) a `private` room the user masters; (b) a `template_clone` room the user
masters; (c) only with auto-create disabled, any `template_clone` room;
(d) only with auto-create disabled, the randomly indexed joined room. -/
def pickJoinedRoomSpec (cfg : Config) (userId : String)
    (rooms : List ConversationRoom) (k : Nat) : Option ConversationRoom :=
  match rooms.find? fun r => r.visibility == "private" && r.roomMasterId == userId with
  | some r => some r
  | none =>
    match rooms.find? fun r => r.visibility == "template_clone" && r.roomMasterId == userId with
    | some r => some r
    | none =>
      if !cfg.autoCreateRoomFromUser then
        match rooms.find? fun r => r.visibility == "template_clone" with
        | some r => some r
        | none => rooms.get? (k % rooms.length)
      else
        none

/-! ## check_room (src/packages/core/src/middlewares/check_room.ts) -/

/-- Recorded outcome of a `check_room` run: status, the final
`context.options.room`, the `switchConversationRoom` argument (a room NAME
here, unlike resolve_room), the notice passed to `context.send`, and the
final `context.message`. -/
structure CheckResult where
  status : RunStatus
  room : Option ConversationRoom
  switchedTo : Option String
  sent : Option String
  message : Option String
deriving Repr, DecidableEq

/-- The `check_room` middleware handler (check_room.ts lines 13-36), as a
function of `context.options.room`, the joined rooms returned by
`getAllJoinedConversationRoom`, and the random index. With no room and a
non-empty joined set it switches to the randomly indexed room; with no
room and an empty set it stops with a join-first notice; with a room set
it stops with a not-joined notice unless EVERY joined room matches the
room by name or id (`rooms.every` in the source), else continues. -/
def check_room (room : Option ConversationRoom)
    (rooms : List ConversationRoom) (k : Nat) : CheckResult :=
  match room, rooms with
  | none, [] =>
    { status := RunStatus.STOP
      room := none
      switchedTo := none
      sent := none
      message := some "你还没有加入任何房间，请先加入房间。" }
  | none, r0 :: rest =>
    let rooms := r0 :: rest
    let r := rooms.getD (k % rooms.length) r0
    { status := RunStatus.CONTINUE
      room := some r
      switchedTo := some r.roomName
      sent := some ("检测到你没有指定房间，已为你随机切换到房间 " ++ r.roomName)
      message := none }
  | some r, rooms =>
    if !(rooms.all fun sr => sr.roomName == r.roomName || sr.roomId == r.roomId) then
      { status := RunStatus.STOP
        room := some r
        switchedTo := none
        sent := none
        message := some ("你没有加入此房间，请先加入房间 " ++ r.roomName ++ "。") }
    else
      { status := RunStatus.CONTINUE
        room := some r
        switchedTo := none
        sent := none
        message := none }

/-! ## read_chat_message (src/packages/core/src/middlewares/read_chat_message.ts) -/

/-- A message element as the middleware reads it: `element.type` (absent,
i.e. undefined, on plain strings obtained by iterating a string), and the
`content`/`name` attributes. -/
structure MsgElement where
  typ : Option String
  content : Option String
  name : Option String
deriving Repr, DecidableEq

/-- The JavaScript value held in `context.message` (or substituted from
`session.elements`): a primitive string, a `String` wrapper object, or an
array of message elements. -/
inductive JsMessage where
  | primStr (s : String)
  | strObject (s : String)
  | elements (es : List MsgElement)
deriving Repr, DecidableEq

/-- `message instanceof String`: true only for a `String` wrapper object,
false for a primitive string or an array. -/
def isStringObject : JsMessage → Bool
  | JsMessage.strObject _ => true
  | _ => false

/-- A one-character string produced by `for...of` iteration over a string:
its `type` property is undefined, and it has no attributes. -/
def charElement (c : Char) : MsgElement :=
  { typ := none, content := some (String.singleton c), name := none }

/-- What `for (const element of message)` iterates over. -/
def iterElements : JsMessage → List MsgElement
  | JsMessage.primStr s => s.toList.map charElement
  | JsMessage.strObject s => s.toList.map charElement
  | JsMessage.elements es => es

/-- read_chat_message.ts lines 18-27: collect `attrs["content"]` for
`text` elements and `"@" ++ name` for `at` elements with a truthy name
(JavaScript truthiness: defined and non-empty). -/
def elementPieces : List MsgElement → List String
  | [] => []
  | e :: rest =>
    if e.typ == some "text" then
      (e.content.getD "") :: elementPieces rest
    else if e.typ == some "at" then
      match e.name with
      | some n => if n == "" then elementPieces rest else ("@" ++ n) :: elementPieces rest
      | none => elementPieces rest
    else
      elementPieces rest

/-- A middleware handler may return a control signal or a plain string. -/
inductive HandlerReturn where
  | signal (st : RunStatus)
  | text (s : String)
deriving Repr, DecidableEq

/-- The `read_chat_message` middleware handler (read_chat_message.ts lines
6-31), as a function of `context.options.message`, `context.message` and
`session.elements`: skip when an options message is present or the value
is a `String` object; otherwise iterate the value as an element array and
return the joined pieces. -/
def read_chat_message (optionsMessage : Option String)
    (ctxMessage : Option JsMessage) (sessionElements : List MsgElement) : HandlerReturn :=
  let message := ctxMessage.getD (JsMessage.elements sessionElements)
  if optionsMessage.isSome || isStringObject message then
    HandlerReturn.signal RunStatus.SKIPPED
  else
    HandlerReturn.text (String.join (elementPieces (iterElements message)))

/-- Modelled from the spec: the pipeline executor (chains/chain.ts, which
is not among the provided sources) treats a plain-string return from a
handler as sugar for "set the context message to this string and emit
STOP"; a signal return leaves the message untouched. -/
def applyStringSugar : HandlerReturn → RunStatus × Option String
  | HandlerReturn.signal st => (st, none)
  | HandlerReturn.text s => (RunStatus.STOP, some s)

end Chatluna

/-! ## Helper lemmas -/

namespace Chatluna

theorem finishResolve_status (cfg : Config) (jr : Option ConversationRoom)
    (st : Option Nat) (cr : Option ConversationRoom) :
    (finishResolve cfg jr st cr).status = RunStatus.CONTINUE := by
  cases jr <;> rfl

theorem finishResolve_switchedTo (cfg : Config) (jr : Option ConversationRoom)
    (st : Option Nat) (cr : Option ConversationRoom) :
    (finishResolve cfg jr st cr).switchedTo = st := by
  cases jr <;> rfl

theorem pickJoinedRoom_eq_spec (cfg : Config) (uid : String)
    (rooms : List ConversationRoom) (k : Nat) :
    pickJoinedRoom cfg uid rooms k = pickJoinedRoomSpec cfg uid rooms k := by
  unfold pickJoinedRoom pickJoinedRoomSpec
  cases h1 : rooms.find? fun r => r.visibility == "private" && r.roomMasterId == uid with
  | some r => simp [Option.orElse]
  | none =>
    cases h2 : rooms.find? fun r => r.visibility == "template_clone" && r.roomMasterId == uid with
    | some r => simp [Option.orElse]
    | none =>
      cases hb : cfg.autoCreateRoomFromUser <;>
        cases h3 : rooms.find? fun r => r.visibility == "template_clone" <;>
          simp [Option.orElse]

theorem pickJoinedRoomSpec_nil (cfg : Config) (uid : String) (k : Nat) :
    pickJoinedRoomSpec cfg uid [] k = none := by
  simp [pickJoinedRoomSpec]

theorem matchedRoomOf_none (env : Env) (message : String)
    (hq : ∀ n, env.queryJoined n = none) : matchedRoomOf env message = none := by
  simp [matchedRoomOf, hq]

theorem resolve_step1_none (cfg : Config) (env : Env) (s : Session) (c : RCtx)
    (hq : ∀ n, env.queryJoined n = none)
    (hc : cfg.allowChatWithRoomName = true → needContinue cfg s c.command = true) :
    resolve_room cfg env s c = resolveStep2 cfg env s c none := by
  unfold resolve_room
  have hm := matchedRoomOf_none env c.message hq
  cases hA : cfg.allowChatWithRoomName with
  | false => simp [hm, hq]
  | true => simp [hm, hq, hc hA]

/-! ## Claim theorems -/

/-- C1: when step 1 resolves no room (the name hint and, when enabled, the
first-word match both fail, and a continuation trigger applies so the run
is not stopped early) and the user has joined rooms, `resolve_room`
selects exactly the room given by the spec's priority order — private
owned, then template_clone owned, then (auto-create disabled only) any
template_clone, then (auto-create disabled only) the random joined room —
and switches the session's active room to the pick, continuing the
pipeline. -/
theorem resolve_priority_pick (cfg : Config) (env : Env) (s : Session) (c : RCtx)
    (hq : ∀ n, env.queryJoined n = none)
    (hc : cfg.allowChatWithRoomName = true → needContinue cfg s c.command = true)
    (r : ConversationRoom)
    (hp : pickJoinedRoomSpec cfg s.userId env.joinedRooms env.randIdx = some r) :
    pickJoinedRoom cfg s.userId env.joinedRooms env.randIdx = some r ∧
    resolve_room cfg env s c =
      ResolveOutcome.ok (finishResolve cfg (some r) (some r.roomId) none) ∧
    outSwitchedTo (resolve_room cfg env s c) = some r.roomId ∧
    outStatus (resolve_room cfg env s c) = some RunStatus.CONTINUE := by
  have hpick := (pickJoinedRoom_eq_spec cfg s.userId env.joinedRooms env.randIdx).trans hp
  have hne : env.joinedRooms ≠ [] := by
    intro h
    rw [h, pickJoinedRoomSpec_nil] at hp
    exact Option.noConfusion hp
  have hlen : 0 < env.joinedRooms.length := List.length_pos.mpr hne
  have h1 := resolve_step1_none cfg env s c hq hc
  have h2 : resolve_room cfg env s c =
      ResolveOutcome.ok (finishResolve cfg (some r) (some r.roomId) none) := by
    rw [h1]
    unfold resolveStep2
    simp [hlen, hpick]
  refine ⟨hpick, h2, ?_, ?_⟩
  · rw [h2]
    simp [outSwitchedTo, finishResolve_switchedTo]
  · rw [h2]
    simp [outStatus, finishResolve_status]

/-- Witness fixtures: user u1 joined a public room, a template_clone room
they master, and a private room they master. -/
def wPublicRoom : ConversationRoom :=
  ⟨2, "B", "cB", "u2", "public", "p", "m", "c", false⟩

def wOwnedClone : ConversationRoom :=
  ⟨3, "C", "cC", "u1", "template_clone", "p", "m", "c", false⟩

def wOwnedPrivate : ConversationRoom :=
  ⟨1, "A", "cA", "u1", "private", "p", "m", "c", false⟩

def wCfg : Config :=
  ⟨false, false, false, false, "Bot", false, true, "p1", "m1", "c1"⟩

def wEnv : Env :=
  ⟨fun _ => none, [wPublicRoom, wOwnedClone, wOwnedPrivate], none, none, 5, "uuid", 0⟩

def wSession : Session :=
  ⟨"u1", some "Ann", false, false, "hello", some "G", "g1"⟩

def wCtx : RCtx :=
  ⟨none, none, "hello"⟩

/-- C1 witness: in the public / owned-clone / owned-private scenario the
owned private room (id 1) is selected. -/
theorem resolve_priority_pick_witness :
    outSwitchedTo (resolve_room wCfg wEnv wSession wCtx) = some wOwnedPrivate.roomId ∧
    outStatus (resolve_room wCfg wEnv wSession wCtx) = some RunStatus.CONTINUE :=
  ⟨(resolve_priority_pick wCfg wEnv wSession wCtx (fun _ => rfl) (by decide)
      wOwnedPrivate (by decide)).2.2.1,
   (resolve_priority_pick wCfg wEnv wSession wCtx (fun _ => rfl) (by decide)
      wOwnedPrivate (by decide)).2.2.2⟩

end Chatluna

namespace Chatluna

/-- Config with `allowChatWithRoomName` enabled and every continuation
trigger disabled. -/
def wCfgChat : Config :=
  ⟨true, false, false, false, "Bot", false, true, "p1", "m1", "c1"⟩

/-- C3 counterexample: with `allowChatWithRoomName` enabled, a failed
first-word match and no continuation trigger, the stage returns `STOP`,
not `SKIPPED` as claimed. -/
theorem resolve_no_match_stop_cex :
    wCfgChat.allowChatWithRoomName = true ∧
    matchedRoomOf wEnv wCtx.message = none ∧
    needContinue wCfgChat wSession wCtx.command = false ∧
    outStatus (resolve_room wCfgChat wEnv wSession wCtx) = some RunStatus.STOP ∧
    outStatus (resolve_room wCfgChat wEnv wSession wCtx) ≠ some RunStatus.SKIPPED := by
  decide

/-- C3 (amended): with `allowChatWithRoomName` enabled, when the
first-word room-name match fails and no continuation trigger holds, the
stage halts the pipeline with `STOP` before steps 2-5 execute (no switch,
creation, cache clear, upsert or history clear is performed and no room is
stored). -/
theorem resolve_no_match_halts_stop (cfg : Config) (env : Env) (s : Session) (c : RCtx)
    (hA : cfg.allowChatWithRoomName = true)
    (hm : matchedRoomOf env c.message = none)
    (hc : needContinue cfg s c.command = false) :
    resolve_room cfg env s c =
      ResolveOutcome.ok
        { status := RunStatus.STOP
          room := none
          switchedTo := none
          created := none
          clearedCache := false
          upserted := none
          clearedHistory := false } := by
  unfold resolve_room
  simp [hA, hm, hc]

/-- C3 witness. -/
theorem resolve_no_match_halts_stop_witness :
    resolve_room wCfgChat wEnv wSession wCtx =
      ResolveOutcome.ok
        { status := RunStatus.STOP
          room := none
          switchedTo := none
          created := none
          clearedCache := false
          upserted := none
          clearedHistory := false } :=
  resolve_no_match_halts_stop wCfgChat wEnv wSession wCtx (by decide) (by decide) (by decide)

/-- C9: with `allowChatWithRoomName` enabled and the run not halted at
step 1 (a continuation trigger holds) but the first-word match failed,
the room resolved from the `room_resolve.name` hint — even when that hint
query succeeds (`_hr`) — is unconditionally overwritten by the undefined
first-word match, so the rest of the run proceeds with no room held. -/
theorem resolve_name_hint_discarded (cfg : Config) (env : Env) (s : Session) (c : RCtx)
    (hA : cfg.allowChatWithRoomName = true)
    (hm : matchedRoomOf env c.message = none)
    (hc : needContinue cfg s c.command = true)
    (r : ConversationRoom)
    (_hr : env.queryJoined c.roomResolveName = some r) :
    resolve_room cfg env s c = resolveStep2 cfg env s c none := by
  unfold resolve_room
  simp [hA, hm, hc]

def wHintRoom : ConversationRoom :=
  ⟨8, "H", "cH", "u1", "private", "p", "m", "c", false⟩

def wEnvHint : Env :=
  ⟨fun n => if n == some "H" then some wHintRoom else none, [], none, none, 5, "uuid", 0⟩

def wCtxHint : RCtx :=
  ⟨some "H", some "cmd", "hello"⟩

/-- C9 witness: the hint resolves room "H", a command context permits
continuation, yet the run ends holding no room. -/
theorem resolve_name_hint_discarded_witness :
    wEnvHint.queryJoined wCtxHint.roomResolveName = some wHintRoom ∧
    resolve_room wCfgChat wEnvHint wSession wCtxHint =
      resolveStep2 wCfgChat wEnvHint wSession wCtxHint none ∧
    outRoom (resolve_room wCfgChat wEnvHint wSession wCtxHint) = none :=
  ⟨by decide,
   resolve_name_hint_discarded wCfgChat wEnvHint wSession wCtxHint (by decide) (by decide)
     (by decide) wHintRoom (by decide),
   by decide⟩

/-- Config with auto-create enabled, and an environment where the only
joined room is a public room of another user. -/
def wCfgAuto : Config :=
  ⟨false, false, false, false, "Bot", false, true, "p1", "m1", "c1"⟩

def wEnvNoOwned : Env :=
  ⟨fun _ => none, [wPublicRoom], none, none, 5, "uuid", 0⟩

/-- C8: with `autoCreateRoomFromUser` enabled and a non-empty joined set
containing no private or template_clone room mastered by the user, the
step-2 pick leaves `joinRoom` null and the unguarded
`switchConversationRoom(ctx, session, joinRoom.roomId)` dereferences null:
the run reaches the embedding's error branch. -/
theorem resolve_null_deref_reachable :
    wCfgAuto.autoCreateRoomFromUser = true ∧
    wEnvNoOwned.joinedRooms ≠ [] ∧
    (∀ r ∈ wEnvNoOwned.joinedRooms,
      ¬(r.visibility = "private" ∧ r.roomMasterId = wSession.userId) ∧
      ¬(r.visibility = "template_clone" ∧ r.roomMasterId = wSession.userId)) ∧
    resolve_room wCfgAuto wEnvNoOwned wSession wCtx = ResolveOutcome.nullDeref := by
  decide

end Chatluna

namespace Chatluna

/-- A template_clone room with `autoUpdate` whose preset AND model both
differ from the live defaults of `wCfg`. -/
def wDriftRoom : ConversationRoom :=
  ⟨7, "R", "c4", "u9", "template_clone", "p0", "m0", "c1", true⟩

def wEnvDrift : Env :=
  ⟨fun _ => some wDriftRoom, [], none, none, 5, "uuid", 0⟩

/-- C4 counterexample: a run adopting a template_clone `autoUpdate` room
whose model differs from `defaultModel` does NOT call `clearCache` when
the preset differs as well (the model check sits in an `else` branch), so
the claim fails: `clearedCache = false` in the final outcome. -/
theorem resync_skips_clear_cache_cex :
    wDriftRoom.visibility = "template_clone" ∧
    wDriftRoom.autoUpdate = true ∧
    wDriftRoom.model ≠ wCfg.defaultModel ∧
    wDriftRoom.preset ≠ wCfg.defaultPreset ∧
    resolve_room wCfg wEnvDrift wSession wCtx =
      ResolveOutcome.ok
        { status := RunStatus.CONTINUE
          room := some ⟨7, "R", "c4", "u9", "template_clone", "p1", "m1", "c1", true⟩
          switchedTo := none
          created := none
          clearedCache := false
          upserted := some ⟨7, "R", "c4", "u9", "template_clone", "p1", "m1", "c1", true⟩
          clearedHistory := true } := by
  decide

/-- C4 (amended): for a template_clone room with `autoUpdate`, the resync
step calls `clearCache` if and only if the stored preset and chatMode both
equal the live defaults and the stored model differs — NOT whenever the
model differs; preset/chatMode drift suppresses the cache invalidation. -/
theorem resync_clear_cache_iff (cfg : Config) (r : ConversationRoom)
    (hv : r.visibility = "template_clone") (ha : r.autoUpdate = true) :
    (templateResync cfg r).clearedCache = true ↔
      (r.preset = cfg.defaultPreset ∧ r.chatMode = cfg.defaultChatMode ∧
       r.model ≠ cfg.defaultModel) := by
  simp [templateResync, hv, ha]
  tauto

/-- C4 witness: with only the model differing, `clearCache` does run. -/
theorem resync_clear_cache_iff_witness :
    (templateResync wCfg ⟨7, "R", "c4", "u9", "template_clone", "p1", "m0", "c1", true⟩).clearedCache
      = true :=
  (resync_clear_cache_iff wCfg ⟨7, "R", "c4", "u9", "template_clone", "p1", "m0", "c1", true⟩
    rfl rfl).mpr (by decide)

/-- C6: a template_clone `autoUpdate` room whose preset or chatMode drifted
from the live defaults is upserted with the live model/preset/chatMode and
has its history cleared; resyncing the persisted room again (no further
config change) upserts nothing, clears nothing, and leaves the room
unchanged — one history clear per config drift. -/
theorem resync_idempotent (cfg : Config) (r : ConversationRoom)
    (hv : r.visibility = "template_clone") (ha : r.autoUpdate = true)
    (hd : r.preset ≠ cfg.defaultPreset ∨ r.chatMode ≠ cfg.defaultChatMode) :
    (templateResync cfg r).upserted = some (templateResync cfg r).room ∧
    (templateResync cfg r).clearedHistory = true ∧
    (templateResync cfg r).room.model = cfg.defaultModel ∧
    (templateResync cfg r).room.preset = cfg.defaultPreset ∧
    (templateResync cfg r).room.chatMode = cfg.defaultChatMode ∧
    templateResync cfg (templateResync cfg r).room =
      { room := (templateResync cfg r).room
        clearedCache := false
        upserted := none
        clearedHistory := false } := by
  have hneed : (r.preset != cfg.defaultPreset || r.chatMode != cfg.defaultChatMode) = true := by
    rcases hd with h | h <;> simp [h]
  simp [templateResync, hv, ha, hneed]

/-- C6 witness. -/
theorem resync_idempotent_witness :
    (templateResync wCfg wDriftRoom).upserted = some (templateResync wCfg wDriftRoom).room ∧
    (templateResync wCfg wDriftRoom).clearedHistory = true ∧
    (templateResync wCfg wDriftRoom).room.model = wCfg.defaultModel ∧
    (templateResync wCfg wDriftRoom).room.preset = wCfg.defaultPreset ∧
    (templateResync wCfg wDriftRoom).room.chatMode = wCfg.defaultChatMode ∧
    templateResync wCfg (templateResync wCfg wDriftRoom).room =
      { room := (templateResync wCfg wDriftRoom).room
        clearedCache := false
        upserted := none
        clearedHistory := false } :=
  resync_idempotent wCfg wDriftRoom rfl rfl (Or.inl (by decide))

/-- C5: a run by a user with zero joined rooms, no command, auto-create
enabled and an existing template room ends with a created and persisted
clone: visibility private, mastered by the requesting user, room id =
previous max + 1, a conversation id that is the fresh uuid (differing from
the template's), and a name derived from the user's display name (direct)
or the guild's display name (group), suffixed " 的房间". -/
theorem resolve_auto_create (cfg : Config) (env : Env) (s : Session) (c : RCtx)
    (hq : ∀ n, env.queryJoined n = none)
    (hc : cfg.allowChatWithRoomName = true → needContinue cfg s c.command = true)
    (hj : env.joinedRooms = [])
    (hcmd : c.command = none)
    (hauto : cfg.autoCreateRoomFromUser = true)
    (t : ConversationRoom)
    (ht : env.templateRoom = some t)
    (hu : env.freshUuid ≠ t.conversationId) :
    resolve_room cfg env s c =
      ResolveOutcome.ok
        { status := RunStatus.CONTINUE
          room := some (makeCloneRoom cfg s env t)
          switchedTo := none
          created := some (makeCloneRoom cfg s env t)
          clearedCache := false
          upserted := none
          clearedHistory := false } ∧
    (makeCloneRoom cfg s env t).visibility = "private" ∧
    (makeCloneRoom cfg s env t).roomMasterId = s.userId ∧
    (makeCloneRoom cfg s env t).roomId = env.maxRoomId + 1 ∧
    (makeCloneRoom cfg s env t).conversationId ≠ t.conversationId ∧
    (makeCloneRoom cfg s env t).roomName =
      (if s.isDirect then s.username.getD s.userId
       else s.guildName.getD (s.username.getD s.guildId)) ++ " 的房间" := by
  have h1 := resolve_step1_none cfg env s c hq hc
  refine ⟨?_, ?_, ?_, ?_, ?_, ?_⟩
  · rw [h1]
    unfold resolveStep2
    simp [hj]
    unfold resolveStep3
    simp [hauto, hcmd, cmdLen, ht]
    unfold finishResolve
    simp [templateResync, makeCloneRoom, hauto]
  · simp [makeCloneRoom, hauto]
  · simp [makeCloneRoom]
  · simp [makeCloneRoom]
  · simp [makeCloneRoom, hu]
  · simp [makeCloneRoom, hauto]

/-- A designated template room (another user's, `autoUpdate` on) and an
environment where the user joined nothing. -/
def wTemplate : ConversationRoom :=
  ⟨9, "tpl", "cT", "admin", "template_clone", "p0", "m0", "c0", true⟩

def wEnvTpl : Env :=
  ⟨fun _ => none, [], none, some wTemplate, 5, "uuid-new", 0⟩

/-- C5 witness: the group-chat user u1 with no joined rooms gets the
freshly persisted private clone with room id 6 and guild-derived name. -/
theorem resolve_auto_create_witness :
    resolve_room wCfgAuto wEnvTpl wSession wCtx =
      ResolveOutcome.ok
        { status := RunStatus.CONTINUE
          room := some (makeCloneRoom wCfgAuto wSession wEnvTpl wTemplate)
          switchedTo := none
          created := some (makeCloneRoom wCfgAuto wSession wEnvTpl wTemplate)
          clearedCache := false
          upserted := none
          clearedHistory := false } ∧
    (makeCloneRoom wCfgAuto wSession wEnvTpl wTemplate).visibility = "private" ∧
    (makeCloneRoom wCfgAuto wSession wEnvTpl wTemplate).roomMasterId = wSession.userId ∧
    (makeCloneRoom wCfgAuto wSession wEnvTpl wTemplate).roomId = wEnvTpl.maxRoomId + 1 ∧
    (makeCloneRoom wCfgAuto wSession wEnvTpl wTemplate).conversationId ≠
      wTemplate.conversationId ∧
    (makeCloneRoom wCfgAuto wSession wEnvTpl wTemplate).roomName =
      (if wSession.isDirect then wSession.username.getD wSession.userId
       else wSession.guildName.getD (wSession.username.getD wSession.guildId)) ++ " 的房间" :=
  resolve_auto_create wCfgAuto wEnvTpl wSession wCtx (fun _ => rfl) (by decide) rfl rfl rfl
    wTemplate rfl (by decide)

end Chatluna

namespace Chatluna

/-- C2 evidence for the code bug: `check_room` tests membership with
`rooms.every(...)` instead of an existential match, so (i) a room the user
HAS joined yields `STOP` with the "not joined" notice as soon as any other
joined room fails the name/id comparison, and (ii) with zero joined rooms
the vacuous `every` lets an un-joined room `CONTINUE`. -/
theorem check_room_membership_every_cex :
    wOwnedPrivate ∈ [wOwnedPrivate, wPublicRoom] ∧
    (check_room (some wOwnedPrivate) [wOwnedPrivate, wPublicRoom] 0).status = RunStatus.STOP ∧
    (check_room (some wOwnedPrivate) [wOwnedPrivate, wPublicRoom] 0).message =
      some ("你没有加入此房间，请先加入房间 " ++ wOwnedPrivate.roomName ++ "。") ∧
    wOwnedPrivate ∉ ([] : List ConversationRoom) ∧
    (check_room (some wOwnedPrivate) [] 0).status = RunStatus.CONTINUE := by
  decide

/-- C7: with `context.options.room` unset, `check_room` stops with the
"join a room first" notice when the joined set is empty, and otherwise
switches to a (randomly indexed) joined room, notifies the user and
continues. -/
theorem check_room_no_room (rooms : List ConversationRoom) (k : Nat) :
    (rooms = [] →
      check_room none rooms k =
        { status := RunStatus.STOP
          room := none
          switchedTo := none
          sent := none
          message := some "你还没有加入任何房间，请先加入房间。" }) ∧
    (∀ r0 rest, rooms = r0 :: rest →
      ∃ r, r ∈ rooms ∧
        check_room none rooms k =
          { status := RunStatus.CONTINUE
            room := some r
            switchedTo := some r.roomName
            sent := some ("检测到你没有指定房间，已为你随机切换到房间 " ++ r.roomName)
            message := none }) := by
  constructor
  · intro h; subst h; rfl
  · intro r0 rest h; subst h
    refine ⟨(r0 :: rest).getD (k % (r0 :: rest).length) r0, ?_, rfl⟩
    have hlt : k % (r0 :: rest).length < (r0 :: rest).length :=
      Nat.mod_lt _ (by simp)
    rw [List.getD_eq_getElem _ _ hlt]
    exact List.getElem_mem hlt

/-- C7 witness. -/
theorem check_room_no_room_witness :
    check_room none [] 0 =
      { status := RunStatus.STOP
        room := none
        switchedTo := none
        sent := none
        message := some "你还没有加入任何房间，请先加入房间。" } ∧
    (∃ r, r ∈ [wOwnedPrivate] ∧
      check_room none [wOwnedPrivate] 3 =
        { status := RunStatus.CONTINUE
          room := some r
          switchedTo := some r.roomName
          sent := some ("检测到你没有指定房间，已为你随机切换到房间 " ++ r.roomName)
          message := none }) :=
  ⟨(check_room_no_room [] 0).1 rfl,
   (check_room_no_room [wOwnedPrivate] 3).2 wOwnedPrivate [] rfl⟩

theorem elementPieces_char_map (l : List Char) :
    elementPieces (l.map charElement) = [] := by
  induction l with
  | nil => rfl
  | cons c rest ih => simpa [elementPieces, charElement] using ih

/-- C10: when `context.options.message` is null and `context.message` is a
primitive string, `read_chat_message` does not skip (the
`instanceof String` test is false for primitives); iterating the string
character by character collects nothing, the handler returns the empty
string, and the executor's string-return sugar turns that into setting the
message to "" and emitting `STOP`. -/
theorem read_primitive_string_empty (s : String) (els : List MsgElement) :
    read_chat_message none (some (JsMessage.primStr s)) els = HandlerReturn.text "" ∧
    read_chat_message none (some (JsMessage.primStr s)) els ≠
      HandlerReturn.signal RunStatus.SKIPPED ∧
    applyStringSugar (read_chat_message none (some (JsMessage.primStr s)) els) =
      (RunStatus.STOP, some "") := by
  have h : read_chat_message none (some (JsMessage.primStr s)) els = HandlerReturn.text "" := by
    unfold read_chat_message
    simp [isStringObject, iterElements, elementPieces_char_map, String.join]
  exact ⟨h, by rw [h]; exact fun hh => HandlerReturn.noConfusion hh, by rw [h]; rfl⟩

end Chatluna
